import Mathlib

/-!
Verification development for the agent execution environment of this
repository (`src/agent_ide/core/execution.py` together with the agent
record model of `src/agent_ide/core/agent.py`).

Modelling conventions.  Python dictionaries keyed by agent id become
functions `String → Option α`.  Readings of `datetime.now()` become
explicit integer tick parameters (`tStart`, `tEnd`, `tFin`).  The
cancellation event owned by a run is represented by the oracle
`stopSet : Nat → Bool`, giving the value the loop observes at the
cancellation check of 0-based loop index `i`; the per-step simulated work
(`time.sleep(0.1)` in the source) is abstracted by the oracle
`stepFault : Nat → Option String`, giving the message of an exception that
the work of loop index `i` raises, if any (`none` meaning the step's work
returns normally, as `time.sleep` does).  Logger calls are no-ops and are
dropped.  A raised Python exception is an `Except.error` carrying the
exception's message; functions that can raise also return the mutable
state as it stands at the raise point.  The `created_at`/`updated_at`
bookkeeping timestamps of the agent record, and the `parameters`,
`capabilities` and `model` configuration fields, are not observable by any
execution behaviour and are omitted.
-/

/-- A Python dictionary keyed by agent id, as a total lookup function. -/
def Dict (α : Type) : Type := String → Option α

/-- The empty dictionary. -/
def Dict.empty {α : Type} : Dict α := fun _ => none

/-- Dictionary item assignment `m[k] = v`. -/
def Dict.insert {α : Type} (m : Dict α) (k : String) (v : α) : Dict α :=
  fun q => if q = k then some v else m q

/-- Dictionary deletion `del m[k]` in its guarded form `if k in m: del m[k]`
(deleting an absent key is the identity here; the unguarded raising form is
modelled at its single use site in `stop_agent`). -/
def Dict.erase {α : Type} (m : Dict α) (k : String) : Dict α :=
  fun q => if q = k then none else m q

/-- Dictionary lookup `m.get(k)`. -/
def Dict.get {α : Type} (m : Dict α) (k : String) : Option α := m k

/-- Dictionary membership `k in m`. -/
def Dict.contains {α : Type} (m : Dict α) (k : String) : Bool := (m k).isSome

/-- Configuration for an agent (`AgentConfig` in `core/agent.py`). -/
structure AgentConfig where
  name : String
  description : Option String := none
  agent_type : String := "general"
  max_iterations : Nat := 100
  timeout : Nat := 300
  deriving DecidableEq

/-- Current state of an agent (`AgentState` in `core/agent.py`). -/
structure AgentState where
  status : String := "idle"
  current_task : Option String := none
  iteration_count : Nat := 0
  start_time : Option Int := none
  end_time : Option Int := none
  error_message : Option String := none
  deriving DecidableEq

/-- An agent record (`Agent` in `core/agent.py`). -/
structure Agent where
  id : String
  config : AgentConfig
  state : AgentState := {}
  code : String := ""
  deriving DecidableEq

/-- The keyword arguments accepted by `Agent.update_state`: `some` marks a
keyword that was passed, `none` a keyword that was not.  For the optional
state fields a passed value is itself an `Option`, mirroring Python's
`None`-able attributes. -/
structure StateUpdate where
  status : Option String := none
  current_task : Option (Option String) := none
  iteration_count : Option Nat := none
  start_time : Option (Option Int) := none
  end_time : Option (Option Int) := none
  error_message : Option (Option String) := none

/-- `Agent.update_state` from `core/agent.py`: set exactly the state fields
named by the passed keywords, leaving the rest untouched. -/
def Agent.update_state (a : Agent) (u : StateUpdate) : Agent :=
  { a with state :=
    { status := u.status.getD a.state.status
      current_task := u.current_task.getD a.state.current_task
      iteration_count := u.iteration_count.getD a.state.iteration_count
      start_time := u.start_time.getD a.state.start_time
      end_time := u.end_time.getD a.state.end_time
      error_message := u.error_message.getD a.state.error_message } }

/-- `Agent.is_running` from `core/agent.py`. -/
def Agent.is_running (a : Agent) : Bool := a.state.status == "running"

/-- Result of agent execution (`ExecutionResult` in `core/execution.py`). -/
structure ExecutionResult where
  agent_id : String
  success : Bool
  output : Option String := none
  error : Option String := none
  duration : Int := 0
  iterations : Nat := 0
  deriving DecidableEq

/-- The mutable state of an `ExecutionEnvironment` from `core/execution.py`:
the live-unit registry `running_agents` (the `threading.Thread` values carry
no further observable data here), the result store, and the per-agent
cancellation events (`threading.Event`, carried as its `is_set` flag). -/
structure ExecutionEnvironment where
  running_agents : Dict Unit
  results : Dict ExecutionResult
  stop_events : Dict Bool

/-- A freshly constructed `ExecutionEnvironment` (its `__init__`). -/
def ExecutionEnvironment.init : ExecutionEnvironment :=
  { running_agents := Dict.empty, results := Dict.empty, stop_events := Dict.empty }

/-- `ExecutionEnvironment.execute_agent`: raise `RuntimeError` if the agent's
status is already `running`; otherwise allocate an unset stop event keyed by
the agent id, register the execution thread as live, mark the agent running
with a fresh start timestamp and a zeroed iteration counter, start the
thread, and return the agent id.  The returned environment and agent are the
state as it stands when the call returns (unchanged on the raising path,
which mutates nothing before raising). -/
def ExecutionEnvironment.execute_agent (env : ExecutionEnvironment) (agent : Agent)
    (now : Int) : ExecutionEnvironment × Agent × Except String String :=
  if agent.is_running then
    (env, agent, Except.error ("Agent " ++ agent.id ++ " is already running"))
  else
    let env1 : ExecutionEnvironment :=
      { env with stop_events := env.stop_events.insert agent.id false }
    let env2 : ExecutionEnvironment :=
      { env1 with running_agents := env1.running_agents.insert agent.id () }
    let agent1 : Agent := agent.update_state
      { status := some "running", start_time := some (some now), iteration_count := some 0 }
    (env2, agent1, Except.ok agent.id)

/-- `ExecutionEnvironment.is_running`: live-unit registry membership. -/
def ExecutionEnvironment.is_running (env : ExecutionEnvironment) (agent_id : String) : Bool :=
  env.running_agents.contains agent_id

/-- `ExecutionEnvironment.list_running_agents`, as the characteristic
predicate of the live-unit registry's key set. -/
def ExecutionEnvironment.list_running_agents (env : ExecutionEnvironment) : String → Prop :=
  fun agent_id => (env.running_agents.get agent_id).isSome

/-- `ExecutionEnvironment.get_result`: the stored result for an agent id,
or `none` if there is none. -/
def ExecutionEnvironment.get_result (env : ExecutionEnvironment) (agent_id : String) :
    Option ExecutionResult :=
  env.results.get agent_id

/-- The `for i in range(max_iterations)` loop of
`ExecutionEnvironment._execute_agent_code`, entered at 0-based loop index `i`
with `n` loop iterations remaining.  At each index it first checks the
cancellation event (`stopSet i`), then writes `i + 1` to the agent's
iteration counter via `update_state`, then performs the step's simulated
work, which raises with message `msg` when `stepFault i = some msg`.
Returns the mutated agent, the outcome (`Except.error` models an exception
propagating out of the loop), and the ghost list of values written to the
iteration counter, in write order. -/
def runLoop (stopSet : Nat → Bool) (stepFault : Nat → Option String) :
    Agent → Nat → Nat → Agent × Except String String × List Nat
  | agent, _, 0 =>
    (agent,
     Except.ok ("Agent executed successfully for " ++
       toString agent.config.max_iterations ++ " iterations"),
     [])
  | agent, i, n + 1 =>
    if stopSet i then
      (agent, Except.ok ("Execution stopped at iteration " ++ toString i), [])
    else
      let agent1 := agent.update_state { iteration_count := some (i + 1) }
      match stepFault i with
      | some msg => (agent1, Except.error msg, [i + 1])
      | none =>
        let r := runLoop stopSet stepFault agent1 (i + 1) n
        (r.1, r.2.1, (i + 1) :: r.2.2)

/-- Python's truthiness test `not s.strip()`: stripping leading and trailing
whitespace leaves the empty string exactly when every character of `s` is
whitespace. -/
def isBlank (s : String) : Bool := s.toList.all Char.isWhitespace

/-- `ExecutionEnvironment._execute_agent_code`: return immediately when the
agent's code is blank (`not agent.code.strip()`), else run the iteration
loop from index 0 for the configured ceiling. -/
def executeAgentCode (agent : Agent) (stopSet : Nat → Bool)
    (stepFault : Nat → Option String) : Agent × Except String String × List Nat :=
  if isBlank agent.code then (agent, Except.ok "No code to execute", [])
  else runLoop stopSet stepFault agent 0 agent.config.max_iterations

/-- Everything one run of an execution unit produces: the environment and
agent as left behind, the result it constructed, the ghost list of
iteration-counter writes it performed, the observer invocations it made
(each recorded with the environment snapshot at invocation time), and the
observer's outcome where one was invoked (`Except.error` models the
callback raising; the unit catches and logs it). -/
structure RunOutcome where
  env : ExecutionEnvironment
  agent : Agent
  result : ExecutionResult
  counterWrites : List Nat
  observerCalls : List (ExecutionEnvironment × Agent × ExecutionResult)
  observerOutcome : Option (Except String Unit)

/-- `ExecutionEnvironment._run_agent`, the body of one execution unit.
`tStart` is the `datetime.now()` read on entry, `tEnd` the one read inside
the `try`/`except` branch that stamps the agent's end time, `tFin` the one
read in the `finally` block that fixes the result's duration.  The
`try`/`except` converts any exception from the loop into an error result;
the `finally` stores the result, removes the unit's registry entries (with
guarded deletes), and invokes the callback if one was supplied, catching
anything it raises.  No path re-raises: the codomain is a plain
`RunOutcome`, not an `Except`. -/
def runAgent (env : ExecutionEnvironment) (agent : Agent)
    (callback : Option (Agent → ExecutionResult → Except String Unit))
    (stopSet : Nat → Bool) (stepFault : Nat → Option String)
    (tStart tEnd tFin : Int) : RunOutcome :=
  match executeAgentCode agent stopSet stepFault with
  | (agent1, Except.ok output, ws) =>
    let agent2 := agent1.update_state
      { status := some "completed", end_time := some (some tEnd) }
    let result2 : ExecutionResult :=
      { agent_id := agent.id, success := true, output := some output,
        error := none, duration := tFin - tStart,
        iterations := agent1.state.iteration_count }
    let env1 := { env with results := env.results.insert agent.id result2 }
    let env2 := { env1 with running_agents := env1.running_agents.erase agent.id }
    let env3 := { env2 with stop_events := env2.stop_events.erase agent.id }
    match callback with
    | none =>
      { env := env3, agent := agent2, result := result2, counterWrites := ws,
        observerCalls := [], observerOutcome := none }
    | some cb =>
      { env := env3, agent := agent2, result := result2, counterWrites := ws,
        observerCalls := [(env3, agent2, result2)],
        observerOutcome := some (cb agent2 result2) }
  | (agent1, Except.error msg, ws) =>
    let agent2 := agent1.update_state
      { status := some "error", error_message := some (some msg),
        end_time := some (some tEnd) }
    let result2 : ExecutionResult :=
      { agent_id := agent.id, success := false, output := none,
        error := some msg, duration := tFin - tStart, iterations := 0 }
    let env1 := { env with results := env.results.insert agent.id result2 }
    let env2 := { env1 with running_agents := env1.running_agents.erase agent.id }
    let env3 := { env2 with stop_events := env2.stop_events.erase agent.id }
    match callback with
    | none =>
      { env := env3, agent := agent2, result := result2, counterWrites := ws,
        observerCalls := [], observerOutcome := none }
    | some cb =>
      { env := env3, agent := agent2, result := result2, counterWrites := ws,
        observerCalls := [(env3, agent2, result2)],
        observerOutcome := some (cb agent2 result2) }

/-- `ExecutionEnvironment.stop_agent`.  `unitStops` says whether the live
thread terminates within the 5-second `join` grace period; `envAfterJoin` is
the environment as it stands when `join` returns with the thread terminated
— by then the unit's own `finally` bookkeeping (which removes the unit's
registry entries) has completed.  The source then performs an unguarded
`del self.running_agents[agent_id]`; a `KeyError` raised there is modelled
as `Except.error "KeyError"`, returned together with the state at the raise
point. -/
def ExecutionEnvironment.stop_agent (env : ExecutionEnvironment) (agent_id : String)
    (unitStops : Bool) (envAfterJoin : ExecutionEnvironment) :
    ExecutionEnvironment × Except String Bool :=
  if env.running_agents.contains agent_id then
    let env1 : ExecutionEnvironment :=
      if env.stop_events.contains agent_id then
        { env with stop_events := env.stop_events.insert agent_id true }
      else env
    if unitStops then
      match envAfterJoin.running_agents.get agent_id with
      | none => (envAfterJoin, Except.error "KeyError")
      | some _ =>
        let env2 : ExecutionEnvironment :=
          { envAfterJoin with
            running_agents := envAfterJoin.running_agents.erase agent_id }
        let env3 : ExecutionEnvironment :=
          if env2.stop_events.contains agent_id then
            { env2 with stop_events := env2.stop_events.erase agent_id }
          else env2
        (env3, Except.ok true)
    else
      (env1, Except.ok false)
  else
    (env, Except.ok false)

/-! Concrete fixtures used by witnesses and counterexamples. -/

/-- A five-iteration agent with non-blank code and idle state. -/
def agentA : Agent :=
  { id := "a1", config := { name := "A", max_iterations := 5 }, code := "step" }

/-- A seven-iteration agent whose code is all whitespace. -/
def agentBlank : Agent :=
  { id := "b1", config := { name := "B", max_iterations := 7 }, code := "   " }

/-- An agent whose run state is already `running`. -/
def agentBusy : Agent :=
  { id := "r1", config := { name := "R", max_iterations := 3 },
    state := { status := "running" }, code := "step" }

/-- A fault oracle that raises `boom` during the work of loop index 1,
that is, of 1-indexed step 2. -/
def faultAtTwo : Nat → Option String :=
  fun i => if i = 1 then some "boom" else none

/-- The environment after `execute_agent` has launched `agentA` at tick 0. -/
def envLiveA : ExecutionEnvironment :=
  (ExecutionEnvironment.init.execute_agent agentA 0).1

/-- The agent record as `execute_agent` left it when launching `agentA`. -/
def agentLiveA : Agent :=
  (ExecutionEnvironment.init.execute_agent agentA 0).2.1

/-- `envLiveA` after `stop_agent` has set the unit's cancellation event. -/
def envSignaledA : ExecutionEnvironment :=
  { envLiveA with stop_events := envLiveA.stop_events.insert "a1" true }

/-- The environment left behind by `agentA`'s unit after it observed the
cancellation event at its first check and terminated. -/
def envAfterUnitA : ExecutionEnvironment :=
  (runAgent envSignaledA agentLiveA none (fun _ => true) (fun _ => none) 0 1 1).env

/-! Helper lemmas about the dictionary model. -/

theorem Dict.get_insert_self {α : Type} (m : Dict α) (k : String) (v : α) :
    (m.insert k v).get k = some v := by
  simp [Dict.get, Dict.insert]

theorem Dict.get_insert_ne {α : Type} (m : Dict α) (k q : String) (v : α)
    (h : q ≠ k) : (m.insert k v).get q = m.get q := by
  simp [Dict.get, Dict.insert, h]

theorem Dict.get_erase_self {α : Type} (m : Dict α) (k : String) :
    (m.erase k).get k = none := by
  simp [Dict.get, Dict.erase]

theorem Dict.get_erase_ne {α : Type} (m : Dict α) (k q : String)
    (h : q ≠ k) : (m.erase k).get q = m.get q := by
  simp [Dict.get, Dict.erase, h]

/-! Helper lemmas about agent-state updates. -/

/-- Updating only the iteration counter is the corresponding record update. -/
theorem update_state_iteration (a : Agent) (c : Nat) :
    a.update_state { iteration_count := some c } =
      { a with state := { a.state with iteration_count := c } } := rfl

/-- `is_running` in propositional form. -/
theorem is_running_iff (a : Agent) : a.is_running = true ↔ a.state.status = "running" := by
  simp [Agent.is_running]

/-! Helper lemmas about the iteration loop. -/

/-- A loop never cancelled and never faulting runs all remaining iterations,
leaves the counter at the final index (or untouched when none remained),
reports the ceiling summary, and writes the counter values in order. -/
theorem runLoop_clean (s : Nat → Bool) (f : Nat → Option String)
    (hs : ∀ j, s j = false) (hf : ∀ j, f j = none) :
    ∀ (n i : Nat) (a : Agent),
      runLoop s f a i n =
        ({ a with state := { a.state with
             iteration_count := if n = 0 then a.state.iteration_count else i + n } },
         Except.ok ("Agent executed successfully for " ++
           toString a.config.max_iterations ++ " iterations"),
         List.range' (i + 1) n) := by
  intro n
  induction n with
  | zero => intro i a; simp [runLoop]
  | succ n ih =>
    intro i a
    have hrec := ih (i + 1) (a.update_state { iteration_count := some (i + 1) })
    rw [update_state_iteration] at hrec
    have hcount : (if n = 0 then i + 1 else i + 1 + n) = i + (n + 1) := by
      rcases Nat.eq_zero_or_pos n with h0 | h0
      · simp [h0]
      · simp [Nat.pos_iff_ne_zero.mp h0]; omega
    simp only [runLoop, hs, hf, Bool.false_eq_true, if_false, update_state_iteration, hrec]
    rw [show (List.range' (i + 1) (n + 1)) = (i + 1) :: List.range' (i + 2) n from rfl]
    simp only [if_neg (Nat.succ_ne_zero n)]
    rw [hcount]

/-- A loop whose step work first faults at index `k` (no earlier fault, no
cancellation up to `k`) exits with that fault, the counter left at `k + 1`
(the counter is written before the step's work), and writes
`i + 1, …, k + 1` performed. -/
theorem runLoop_fault_at (s : Nat → Bool) (f : Nat → Option String)
    (k : Nat) (msg : String) (hk : f k = some msg) :
    ∀ (n i : Nat) (a : Agent),
      (∀ j, i ≤ j → j ≤ k → s j = false) →
      (∀ j, i ≤ j → j < k → f j = none) →
      i ≤ k → k < i + n →
      runLoop s f a i n =
        ({ a with state := { a.state with iteration_count := k + 1 } },
         Except.error msg, List.range' (i + 1) (k + 1 - i)) := by
  intro n
  induction n with
  | zero => intro i a _ _ hik hkn; omega
  | succ n ih =>
    intro i a hs hf hik hkn
    have hsi : s i = false := hs i (Nat.le_refl i) hik
    rcases Nat.eq_or_lt_of_le hik with heq | hlt
    · subst heq
      simp only [runLoop, hsi, Bool.false_eq_true, if_false, update_state_iteration, hk]
      rw [show i + 1 - i = 1 from by omega]
      rfl
    · have hfi : f i = none := hf i (Nat.le_refl i) hlt
      have hrec := ih (i + 1)
        (a.update_state { iteration_count := some (i + 1) })
        (fun j h1 h2 => hs j (by omega) h2)
        (fun j h1 h2 => hf j (by omega) h2)
        (by omega) (by omega)
      rw [update_state_iteration] at hrec
      simp only [runLoop, hsi, Bool.false_eq_true, if_false, update_state_iteration, hfi, hrec]
      rw [show k + 1 - i = (k + 1 - (i + 1)) + 1 from by omega]
      rw [show (List.range' (i + 1) ((k + 1 - (i + 1)) + 1)) =
        (i + 1) :: List.range' (i + 2) (k + 1 - (i + 1)) from rfl]

/-- A loop with at least one iteration remaining that observes the
cancellation event at its very first check returns immediately with the
stop marker and performs no counter write. -/
theorem runLoop_stop_first (s : Nat → Bool) (f : Nat → Option String)
    (i n : Nat) (a : Agent) (hs : s i = true) :
    runLoop s f a i (n + 1) =
      (a, Except.ok ("Execution stopped at iteration " ++ toString i), []) := by
  simp [runLoop, hs]

/-- The counter writes a loop performs are non-decreasing, and all of them
are at least `i + 1` when the loop is entered at index `i`. -/
theorem runLoop_writes_sorted (s : Nat → Bool) (f : Nat → Option String) :
    ∀ (n i : Nat) (a : Agent),
      List.Pairwise (fun x y => x ≤ y) (runLoop s f a i n).2.2 ∧
      (∀ x, x ∈ (runLoop s f a i n).2.2 → i + 1 ≤ x) := by
  intro n
  induction n with
  | zero => intro i a; simp [runLoop]
  | succ n ih =>
    intro i a
    by_cases hsi : s i = true
    · simp [runLoop, hsi]
    · have hsi' : s i = false := by
        cases h : s i
        · rfl
        · exact absurd h hsi
      cases hfi : f i with
      | some msg => simp [runLoop, hsi', hfi]
      | none =>
        have hrec := ih (i + 1) (a.update_state { iteration_count := some (i + 1) })
        simp only [runLoop, hsi', Bool.false_eq_true, if_false, hfi]
        constructor
        · exact List.Pairwise.cons (fun x hx => by have := hrec.2 x hx; omega) hrec.1
        · intro x hx
          rcases List.mem_cons.mp hx with h | h
          · omega
          · have := hrec.2 x h; omega

/-! Claim theorems. -/

/-- C1: executing an agent whose run state is `running` fails with the
AlreadyRunning error and leaves the agent's state, the live-unit registry
and the result store unchanged; executing an agent in any other state
succeeds, marks it running, records the start timestamp, resets the
iteration counter to zero, allocates an unset cancellation event keyed by
the agent id, registers the unit as live, leaves the result store
untouched, and returns the agent id as the handle. -/
theorem C1_execute_contract (env : ExecutionEnvironment) (agent : Agent) (now : Int) :
    (agent.state.status = "running" →
      env.execute_agent agent now =
        (env, agent, Except.error ("Agent " ++ agent.id ++ " is already running"))) ∧
    (agent.state.status ≠ "running" →
      (env.execute_agent agent now).2.2 = Except.ok agent.id ∧
      ((env.execute_agent agent now).2.1).state.status = "running" ∧
      ((env.execute_agent agent now).2.1).state.start_time = some now ∧
      ((env.execute_agent agent now).2.1).state.iteration_count = 0 ∧
      ((env.execute_agent agent now).1).stop_events.get agent.id = some false ∧
      ((env.execute_agent agent now).1).running_agents.get agent.id = some () ∧
      ((env.execute_agent agent now).1).results = env.results) := by
  constructor
  · intro h
    have hb : agent.is_running = true := by simp [Agent.is_running, h]
    simp [ExecutionEnvironment.execute_agent, hb]
  · intro h
    have hb : agent.is_running = false := by simp [Agent.is_running, h]
    simp [ExecutionEnvironment.execute_agent, hb, Agent.update_state,
      Dict.get_insert_self]

/-- Witness for C1 at a concrete input: executing the already-running
`agentBusy` fails with the AlreadyRunning error and changes nothing. -/
theorem C1_execute_contract_witness :
    ExecutionEnvironment.init.execute_agent agentBusy 0 =
      (ExecutionEnvironment.init, agentBusy,
        Except.error ("Agent " ++ agentBusy.id ++ " is already running")) :=
  (C1_execute_contract ExecutionEnvironment.init agentBusy 0).1 (by decide)

/-- C2: on every termination path of an execution unit (normal, faulting,
or cancelled; with or without an observer) the unit leaves the agent in a
terminal `completed` or `error` status — never `running` —, stamps the end
time, fixes the result's duration as the elapsed time, and stores the
finished result in the result store under the agent's id.  No exception
propagates out of the unit: `runAgent` is a total function into
`RunOutcome` for arbitrary fault and observer behaviour. -/
theorem C2_unit_termination (env : ExecutionEnvironment) (agent : Agent)
    (cb : Option (Agent → ExecutionResult → Except String Unit))
    (stopSet : Nat → Bool) (stepFault : Nat → Option String) (tStart tEnd tFin : Int) :
    ((runAgent env agent cb stopSet stepFault tStart tEnd tFin).agent.state.status = "completed" ∨
      (runAgent env agent cb stopSet stepFault tStart tEnd tFin).agent.state.status = "error") ∧
    (runAgent env agent cb stopSet stepFault tStart tEnd tFin).agent.state.end_time = some tEnd ∧
    (runAgent env agent cb stopSet stepFault tStart tEnd tFin).result.duration = tFin - tStart ∧
    (runAgent env agent cb stopSet stepFault tStart tEnd tFin).env.get_result agent.id =
      some ((runAgent env agent cb stopSet stepFault tStart tEnd tFin).result) := by
  rcases h : executeAgentCode agent stopSet stepFault with ⟨a1, o, ws⟩
  cases o with
  | ok out =>
    cases cb <;>
      simp [runAgent, h, Agent.update_state, ExecutionEnvironment.get_result,
        Dict.get_insert_self]
  | error msg =>
    cases cb <;>
      simp [runAgent, h, Agent.update_state, ExecutionEnvironment.get_result,
        Dict.get_insert_self]

/-- C10: an agent whose code is empty or all whitespace and whose counter
starts at zero (as `execute_agent` leaves it) terminates immediately with a
successful result whose output is the no-code marker and whose iteration
count is zero, whatever the configured ceiling and whatever the
cancellation and fault oracles do, and the agent record ends `completed`. -/
theorem C10_blank_code (env : ExecutionEnvironment) (agent : Agent)
    (cb : Option (Agent → ExecutionResult → Except String Unit))
    (stopSet : Nat → Bool) (stepFault : Nat → Option String) (tStart tEnd tFin : Int)
    (hcode : isBlank agent.code = true) (hcount : agent.state.iteration_count = 0) :
    (runAgent env agent cb stopSet stepFault tStart tEnd tFin).result.success = true ∧
    (runAgent env agent cb stopSet stepFault tStart tEnd tFin).result.output =
      some "No code to execute" ∧
    (runAgent env agent cb stopSet stepFault tStart tEnd tFin).result.error = none ∧
    (runAgent env agent cb stopSet stepFault tStart tEnd tFin).result.iterations = 0 ∧
    (runAgent env agent cb stopSet stepFault tStart tEnd tFin).agent.state.status =
      "completed" := by
  have h : executeAgentCode agent stopSet stepFault =
      (agent, Except.ok "No code to execute", []) := by
    simp [executeAgentCode, hcode]
  cases cb <;> simp [runAgent, h, Agent.update_state, hcount]

/-- Witness for C10 at a concrete input: the all-whitespace `agentBlank`
with ceiling 7 yields the no-code success result with zero iterations. -/
theorem C10_blank_code_witness :
    (runAgent ExecutionEnvironment.init agentBlank none (fun _ => false)
      (fun _ => none) 0 1 2).result.success = true ∧
    (runAgent ExecutionEnvironment.init agentBlank none (fun _ => false)
      (fun _ => none) 0 1 2).result.output = some "No code to execute" ∧
    (runAgent ExecutionEnvironment.init agentBlank none (fun _ => false)
      (fun _ => none) 0 1 2).result.error = none ∧
    (runAgent ExecutionEnvironment.init agentBlank none (fun _ => false)
      (fun _ => none) 0 1 2).result.iterations = 0 ∧
    (runAgent ExecutionEnvironment.init agentBlank none (fun _ => false)
      (fun _ => none) 0 1 2).agent.state.status = "completed" :=
  C10_blank_code ExecutionEnvironment.init agentBlank none (fun _ => false)
    (fun _ => none) 0 1 2 (by decide) (by decide)

/-- C4 counterexample: with non-blank code and a fault raised during the
work of step 2 (loop index 1), the claim's asserted result iteration count
of k - 1 = 1 is false — the stored result's `iterations` field is 0. -/
theorem C4_fault_counterexample :
    ¬ ((runAgent ExecutionEnvironment.init agentA none (fun _ => false) faultAtTwo
        0 1 2).result.iterations = 2 - 1) := by
  have h : (runAgent ExecutionEnvironment.init agentA none (fun _ => false) faultAtTwo
      0 1 2).result.iterations = 0 := by
    have hloop := runLoop_fault_at (fun _ => false) faultAtTwo 1 "boom" rfl 5 0 agentA
      (fun j _ _ => rfl)
      (fun j _ hj => by
        have h0 : j = 0 := by omega
        subst h0; rfl)
      (by omega) (by omega)
    have hblank : isBlank agentA.code = false := by decide
    have hcode : executeAgentCode agentA (fun _ => false) faultAtTwo =
        runLoop (fun _ => false) faultAtTwo agentA 0 agentA.config.max_iterations := by
      simp [executeAgentCode, hblank]
    rw [show agentA.config.max_iterations = 5 from rfl, hloop] at hcode
    simp [runAgent, hcode]
  rw [h]
  decide

/-- C4 as amended: for a run with non-blank code whose step work first
faults at 1-indexed step `k` (within the ceiling, no cancellation up to
that step), the stored result has success=false and the fault's message as
error text, but its `iterations` field is 0 — the source populates
`result.iterations` only on the success path — while the agent record ends
in the `error` status with the message recorded and its iteration counter
at `k` (the counter is advanced to `k` before the step's work runs). -/
theorem C4_fault_result (env : ExecutionEnvironment) (agent : Agent)
    (cb : Option (Agent → ExecutionResult → Except String Unit))
    (stopSet : Nat → Bool) (stepFault : Nat → Option String) (tStart tEnd tFin : Int)
    (k : Nat) (msg : String)
    (hk1 : 1 ≤ k) (hk2 : k ≤ agent.config.max_iterations)
    (hcode : isBlank agent.code = false)
    (hfault : stepFault (k - 1) = some msg)
    (hprev : ∀ j, j < k - 1 → stepFault j = none)
    (hstop : ∀ j, j ≤ k - 1 → stopSet j = false) :
    (runAgent env agent cb stopSet stepFault tStart tEnd tFin).result.success = false ∧
    (runAgent env agent cb stopSet stepFault tStart tEnd tFin).result.error = some msg ∧
    (runAgent env agent cb stopSet stepFault tStart tEnd tFin).result.iterations = 0 ∧
    (runAgent env agent cb stopSet stepFault tStart tEnd tFin).agent.state.status = "error" ∧
    (runAgent env agent cb stopSet stepFault tStart tEnd tFin).agent.state.error_message =
      some msg ∧
    (runAgent env agent cb stopSet stepFault tStart tEnd tFin).agent.state.iteration_count =
      k := by
  have hloop := runLoop_fault_at stopSet stepFault (k - 1) msg hfault
    agent.config.max_iterations 0 agent
    (fun j _ h2 => hstop j h2)
    (fun j _ h2 => hprev j h2)
    (by omega) (by omega)
  have h0 : executeAgentCode agent stopSet stepFault =
      runLoop stopSet stepFault agent 0 agent.config.max_iterations := by
    simp [executeAgentCode, hcode]
  rw [hloop, show k - 1 + 1 = k from by omega] at h0
  cases cb <;> simp [runAgent, h0, Agent.update_state]

/-- Witness for C4 as amended at a concrete input: `agentA` (ceiling 5)
faulting at step 2 with message `boom`. -/
theorem C4_fault_result_witness :
    (runAgent ExecutionEnvironment.init agentA none (fun _ => false) faultAtTwo
      0 1 2).result.error = some "boom" ∧
    (runAgent ExecutionEnvironment.init agentA none (fun _ => false) faultAtTwo
      0 1 2).result.iterations = 0 ∧
    (runAgent ExecutionEnvironment.init agentA none (fun _ => false) faultAtTwo
      0 1 2).agent.state.iteration_count = 2 := by
  have h := C4_fault_result ExecutionEnvironment.init agentA none (fun _ => false)
    faultAtTwo 0 1 2 2 "boom" (by decide) (by decide) (by decide) (by rfl)
    (fun j hj => by
      have h0 : j = 0 := by omega
      subst h0; rfl)
    (fun j _ => rfl)
  exact ⟨h.2.1, h.2.2.1, h.2.2.2.2.2⟩

/-- C5 counterexample: a run of `agentA` whose cancellation event is set
before the first step check produces a result with success=true, refuting
the claimed success=false. -/
theorem C5_cancel_counterexample :
    ¬ ((runAgent ExecutionEnvironment.init agentA none (fun _ => true) (fun _ => none)
        0 1 2).result.success = false) := by
  have hloop := runLoop_stop_first (fun _ => true) (fun _ => none) 0 4 agentA rfl
  have hblank : isBlank agentA.code = false := by decide
  have h0 : executeAgentCode agentA (fun _ => true) (fun _ => none) =
      runLoop (fun _ => true) (fun _ => none) agentA 0 agentA.config.max_iterations := by
    simp [executeAgentCode, hblank]
  rw [show agentA.config.max_iterations = 5 from rfl] at h0
  rw [show (5 : Nat) = 4 + 1 from rfl, hloop] at h0
  simp [runAgent, h0]

/-- C5 as amended: a run with non-blank code and a positive ceiling that is
cancelled before any step executes (counter starting at zero, as
`execute_agent` leaves it) produces a result with success=true — the source
routes cancellation through the normal-return path — whose output records
that execution stopped at iteration 0, with no error text and iteration
count 0, and the agent record ends in the `completed` status. -/
theorem C5_cancel_result (env : ExecutionEnvironment) (agent : Agent)
    (cb : Option (Agent → ExecutionResult → Except String Unit))
    (stopSet : Nat → Bool) (stepFault : Nat → Option String) (tStart tEnd tFin : Int)
    (hcode : isBlank agent.code = false) (hpos : 0 < agent.config.max_iterations)
    (hstop : stopSet 0 = true) (hcount : agent.state.iteration_count = 0) :
    (runAgent env agent cb stopSet stepFault tStart tEnd tFin).result.success = true ∧
    (runAgent env agent cb stopSet stepFault tStart tEnd tFin).result.output =
      some "Execution stopped at iteration 0" ∧
    (runAgent env agent cb stopSet stepFault tStart tEnd tFin).result.error = none ∧
    (runAgent env agent cb stopSet stepFault tStart tEnd tFin).result.iterations = 0 ∧
    (runAgent env agent cb stopSet stepFault tStart tEnd tFin).agent.state.status =
      "completed" := by
  obtain ⟨m, hm⟩ : ∃ m, agent.config.max_iterations = m + 1 :=
    ⟨agent.config.max_iterations - 1, by omega⟩
  have h0 : executeAgentCode agent stopSet stepFault =
      runLoop stopSet stepFault agent 0 agent.config.max_iterations := by
    simp [executeAgentCode, hcode]
  rw [hm, runLoop_stop_first stopSet stepFault 0 m agent hstop] at h0
  rw [show ("Execution stopped at iteration " ++ toString 0) =
    "Execution stopped at iteration 0" from by decide] at h0
  cases cb <;> simp [runAgent, h0, Agent.update_state, hcount]

/-- Witness for C5 as amended at a concrete input: `agentA` cancelled
before its first step. -/
theorem C5_cancel_result_witness :
    (runAgent ExecutionEnvironment.init agentA none (fun _ => true) (fun _ => none)
      0 1 2).result.success = true ∧
    (runAgent ExecutionEnvironment.init agentA none (fun _ => true) (fun _ => none)
      0 1 2).result.output = some "Execution stopped at iteration 0" ∧
    (runAgent ExecutionEnvironment.init agentA none (fun _ => true) (fun _ => none)
      0 1 2).result.iterations = 0 :=
  have h := C5_cancel_result ExecutionEnvironment.init agentA none (fun _ => true)
    (fun _ => none) 0 1 2 (by decide) (by decide) rfl (by decide)
  ⟨h.1, h.2.1, h.2.2.2.1⟩

/-- C6: a run with non-blank code, a counter starting at zero (as
`execute_agent` leaves it), never cancelled and never faulting, ends with
the agent record's iteration counter equal to the configured ceiling and a
successful result with that iteration count and no error text. -/
theorem C6_ceiling_run (env : ExecutionEnvironment) (agent : Agent)
    (cb : Option (Agent → ExecutionResult → Except String Unit))
    (stopSet : Nat → Bool) (stepFault : Nat → Option String) (tStart tEnd tFin : Int)
    (hcode : isBlank agent.code = false)
    (hstop : ∀ j, stopSet j = false) (hfault : ∀ j, stepFault j = none)
    (hcount : agent.state.iteration_count = 0) :
    (runAgent env agent cb stopSet stepFault tStart tEnd tFin).agent.state.iteration_count =
      agent.config.max_iterations ∧
    (runAgent env agent cb stopSet stepFault tStart tEnd tFin).result.success = true ∧
    (runAgent env agent cb stopSet stepFault tStart tEnd tFin).result.error = none ∧
    (runAgent env agent cb stopSet stepFault tStart tEnd tFin).result.iterations =
      agent.config.max_iterations ∧
    (runAgent env agent cb stopSet stepFault tStart tEnd tFin).agent.state.status =
      "completed" := by
  have h0 : executeAgentCode agent stopSet stepFault =
      runLoop stopSet stepFault agent 0 agent.config.max_iterations := by
    simp [executeAgentCode, hcode]
  rw [runLoop_clean stopSet stepFault hstop hfault agent.config.max_iterations 0 agent] at h0
  rw [show (if agent.config.max_iterations = 0 then agent.state.iteration_count
      else 0 + agent.config.max_iterations) = agent.config.max_iterations from by
    rw [hcount]; split <;> omega] at h0
  cases cb <;> simp [runAgent, h0, Agent.update_state]

/-- Witness for C6 at a concrete input: `agentA` with ceiling 5 yields a
successful result with 5 iterations and no error. -/
theorem C6_ceiling_run_witness :
    (runAgent ExecutionEnvironment.init agentA none (fun _ => false) (fun _ => none)
      0 1 2).agent.state.iteration_count = 5 ∧
    (runAgent ExecutionEnvironment.init agentA none (fun _ => false) (fun _ => none)
      0 1 2).result.success = true ∧
    (runAgent ExecutionEnvironment.init agentA none (fun _ => false) (fun _ => none)
      0 1 2).result.error = none ∧
    (runAgent ExecutionEnvironment.init agentA none (fun _ => false) (fun _ => none)
      0 1 2).result.iterations = 5 :=
  have h := C6_ceiling_run ExecutionEnvironment.init agentA none (fun _ => false)
    (fun _ => none) 0 1 2 (by decide) (fun _ => rfl) (fun _ => rfl) (by decide)
  ⟨h.1, h.2.1, h.2.2.1, h.2.2.2.1⟩

/-- C7: after a run, querying the result store for the run's agent id
returns exactly the result the run produced, and no other id's entry is
affected; in a fresh environment every query returns none, and
`execute_agent` never touches the result store, so an agent that has never
completed a run still queries to none. -/
theorem C7_result_roundtrip (env : ExecutionEnvironment) (agent : Agent)
    (cb : Option (Agent → ExecutionResult → Except String Unit))
    (stopSet : Nat → Bool) (stepFault : Nat → Option String) (tStart tEnd tFin : Int) :
    (runAgent env agent cb stopSet stepFault tStart tEnd tFin).env.get_result agent.id =
      some ((runAgent env agent cb stopSet stepFault tStart tEnd tFin).result) ∧
    (∀ other, other ≠ agent.id →
      (runAgent env agent cb stopSet stepFault tStart tEnd tFin).env.get_result other =
        env.get_result other) ∧
    (∀ anyId, ExecutionEnvironment.init.get_result anyId = none) ∧
    (∀ (e : ExecutionEnvironment) (a : Agent) (now : Int) (q : String),
      ((e.execute_agent a now).1).get_result q = e.get_result q) := by
  refine ⟨?_, ?_, ?_, ?_⟩
  · rcases h : executeAgentCode agent stopSet stepFault with ⟨a1, o, ws⟩
    cases o <;> cases cb <;>
      simp [runAgent, h, ExecutionEnvironment.get_result, Dict.get_insert_self]
  · intro other hother
    rcases h : executeAgentCode agent stopSet stepFault with ⟨a1, o, ws⟩
    cases o <;> cases cb <;>
      simp [runAgent, h, ExecutionEnvironment.get_result, Dict.get_insert_ne, hother]
  · intro anyId
    simp [ExecutionEnvironment.get_result, ExecutionEnvironment.init, Dict.get, Dict.empty]
  · intro e a now q
    simp only [ExecutionEnvironment.execute_agent]
    split <;> rfl

/-- Witness for C7 at a concrete input: a run of `agentA` leaves the stored
entry of the unrelated id `zz` untouched. -/
theorem C7_result_roundtrip_witness :
    (runAgent ExecutionEnvironment.init agentA none (fun _ => false) (fun _ => none)
      0 1 2).env.get_result "zz" = ExecutionEnvironment.init.get_result "zz" :=
  (C7_result_roundtrip ExecutionEnvironment.init agentA none (fun _ => false)
    (fun _ => none) 0 1 2).2.1 "zz" (by decide)

/-- C8: a run executed with an observer supplied invokes it exactly once,
with the final agent record and the stored result, and at a moment when the
result is already stored and the unit already deregistered (the recorded
environment snapshot at invocation time is the final environment, which
holds the stored result and no live entry for the agent); whatever the
observer returns or raises is caught, and the final environment, agent and
result are identical to those of the same run without an observer. -/
theorem C8_observer_contract (env : ExecutionEnvironment) (agent : Agent)
    (cb : Agent → ExecutionResult → Except String Unit)
    (stopSet : Nat → Bool) (stepFault : Nat → Option String) (tStart tEnd tFin : Int) :
    (runAgent env agent (some cb) stopSet stepFault tStart tEnd tFin).observerCalls =
      [((runAgent env agent (some cb) stopSet stepFault tStart tEnd tFin).env,
        (runAgent env agent (some cb) stopSet stepFault tStart tEnd tFin).agent,
        (runAgent env agent (some cb) stopSet stepFault tStart tEnd tFin).result)] ∧
    (runAgent env agent (some cb) stopSet stepFault tStart tEnd tFin).env.get_result
      agent.id =
      some ((runAgent env agent (some cb) stopSet stepFault tStart tEnd tFin).result) ∧
    (runAgent env agent (some cb) stopSet stepFault tStart tEnd tFin).env.running_agents.get
      agent.id = none ∧
    (runAgent env agent (some cb) stopSet stepFault tStart tEnd tFin).observerOutcome =
      some (cb ((runAgent env agent (some cb) stopSet stepFault tStart tEnd tFin).agent)
        ((runAgent env agent (some cb) stopSet stepFault tStart tEnd tFin).result)) ∧
    (runAgent env agent (some cb) stopSet stepFault tStart tEnd tFin).env =
      (runAgent env agent none stopSet stepFault tStart tEnd tFin).env ∧
    (runAgent env agent (some cb) stopSet stepFault tStart tEnd tFin).agent =
      (runAgent env agent none stopSet stepFault tStart tEnd tFin).agent ∧
    (runAgent env agent (some cb) stopSet stepFault tStart tEnd tFin).result =
      (runAgent env agent none stopSet stepFault tStart tEnd tFin).result := by
  rcases h : executeAgentCode agent stopSet stepFault with ⟨a1, o, ws⟩
  cases o <;>
    simp [runAgent, h, ExecutionEnvironment.get_result, Dict.get_insert_self,
      Dict.get_erase_self]

/-- C9: within one run the values the execution unit writes to the agent
record's iteration counter form a non-decreasing sequence, and
`execute_agent` resets the counter to zero at the start of each run it
accepts. -/
theorem C9_counter_monotone (env : ExecutionEnvironment) (agent : Agent)
    (cb : Option (Agent → ExecutionResult → Except String Unit))
    (stopSet : Nat → Bool) (stepFault : Nat → Option String) (tStart tEnd tFin : Int) :
    List.Pairwise (fun x y => x ≤ y)
      ((runAgent env agent cb stopSet stepFault tStart tEnd tFin).counterWrites) ∧
    (∀ (e : ExecutionEnvironment) (a : Agent) (now : Int),
      a.state.status ≠ "running" →
      ((e.execute_agent a now).2.1).state.iteration_count = 0) := by
  constructor
  · have hw : (runAgent env agent cb stopSet stepFault tStart tEnd tFin).counterWrites =
        (executeAgentCode agent stopSet stepFault).2.2 := by
      rcases h : executeAgentCode agent stopSet stepFault with ⟨a1, o, ws⟩
      cases o <;> cases cb <;> simp [runAgent, h]
    rw [hw]
    by_cases hc : isBlank agent.code
    · simp [executeAgentCode, hc]
    · have hc' : isBlank agent.code = false := by
        cases h : isBlank agent.code
        · rfl
        · exact absurd h hc
      simp only [executeAgentCode, hc', Bool.false_eq_true, if_false]
      exact (runLoop_writes_sorted stopSet stepFault agent.config.max_iterations 0 agent).1
  · intro e a now hns
    have hb : a.is_running = false := by simp [Agent.is_running, hns]
    simp [ExecutionEnvironment.execute_agent, hb, Agent.update_state]

/-- Witness for C9 at a concrete input: launching the idle `agentA` resets
its iteration counter to zero. -/
theorem C9_counter_monotone_witness :
    ((ExecutionEnvironment.init.execute_agent agentA 0).2.1).state.iteration_count = 0 :=
  (C9_counter_monotone ExecutionEnvironment.init agentA none (fun _ => false)
    (fun _ => none) 0 1 2).2 ExecutionEnvironment.init agentA 0 (by decide)

/-- C3 (code bug): with a live unit registered for `a1` that terminates
within the grace period, `stop_agent` raises `KeyError` instead of
returning true — the unit's own `finally` bookkeeping already removed the
id from the live-unit registry by the time `join` returned, so the
source's unguarded `del self.running_agents[agent_id]` fails; its
`return True` line is unreachable on this path. -/
theorem C3_stop_agent_keyerror :
    envLiveA.is_running "a1" = true ∧
    envAfterUnitA.running_agents.get "a1" = none ∧
    (envLiveA.stop_agent "a1" true envAfterUnitA).2 = Except.error "KeyError" := by
  refine ⟨rfl, rfl, rfl⟩
